import Mathlib

/-!
Verification of the USB helper (src/daemon/usb_helper.c) of sc-controller.

Shallow embedding: each C function is translated to a Lean function over an
explicit state.  Native calls (libusb transfers, hidapi reads, malloc) are
modelled by boolean oracle parameters giving their success or failure;
machine integers are Nat/Int with explicit reductions mod 2^w where the C
code casts.  The dynamic list utility (scc/utils/list.h) and the daemon
scheduler (daemon.h) are repository code outside the sources given here and
are modelled from the spec at their interface boundary, as noted on each
definition.
-/

namespace UsbHelper

/-- Subsystem tag of a device handle, from the Subsystem enumeration: the
two backends used by usb_helper.c plus a catch-all for every other value
(hit by the default arms of the switches). -/
inductive Subsystem where
  | USB
  | HIDAPI
  | OTHER
deriving DecidableEq, Repr

/-- Symbolic identity of a byte buffer inside sccd_usb_dev_hid_request:
either the caller-supplied data buffer or the freshly malloc-ed out_buffer. -/
inductive Buf where
  | callerBuf
  | freshBuf
deriving DecidableEq, Repr

/-- Effect record of one sccd_usb_dev_hid_request call. -/
structure HidRequestResult where
  /-- returned pointer: none models NULL -/
  ret : Option Buf
  /-- size of the freshly malloc-ed output buffer, if that malloc ran and
  succeeded -/
  allocated : Option Nat
  /-- buffers freed before returning -/
  freed : List Buf
  /-- number of native I/O calls issued (control transfers, or
  hid_send_feature_report / hid_get_feature_report) -/
  ioOps : Nat
deriving DecidableEq, Repr

/-- The uint16_t length computed at the top of sccd_usb_dev_hid_request:
length = (uint16_t)(-_length) when _length < 0, else (uint16_t)_length. -/
def hidReqLen (len : Int) : Nat :=
  if len < 0 then (-len).toNat % 65536 else len.toNat % 65536

/-- Embedding of sccd_usb_dev_hid_request.  hndl_idx is the hndl->idx field
recorded at open time (meaningful for HIDAPI handles); idx is the request
index argument; len is the int32_t _length argument.  mallocOk is the oracle
for the malloc of out_buffer; io1Ok and io2Ok are the oracles for the first
(set report) and second (get report) native I/O call of the chosen backend. -/
def sccd_usb_dev_hid_request (sys : Subsystem) (hndl_idx : Int) (idx : Nat)
    (len : Int) (mallocOk io1Ok io2Ok : Bool) : HidRequestResult :=
  let length := hidReqLen len
  if len < 0 then
    -- use_same_buffer = true; out_buffer = data
    let fail : Nat → HidRequestResult := fun io =>
      { ret := none, allocated := none, freed := [], ioOps := io }
    match sys with
    | .USB =>
      if !io1Ok then fail 1
      else if !io2Ok then fail 2
      else { ret := some .callerBuf, allocated := none, freed := [], ioOps := 2 }
    | .HIDAPI =>
      if length > 256 then
        { ret := none, allocated := none, freed := [], ioOps := 0 }
      else if hndl_idx ≠ (idx : Int) then
        { ret := none, allocated := none, freed := [], ioOps := 0 }
      else if !io1Ok then fail 1
      else if !io2Ok then fail 2
      else { ret := some .callerBuf, allocated := none, freed := [], ioOps := 2 }
    | .OTHER => fail 0
  else if mallocOk then
    -- use_same_buffer = false; out_buffer = malloc(length) succeeded
    let fail : Nat → HidRequestResult := fun io =>
      { ret := none, allocated := some length, freed := [.freshBuf], ioOps := io }
    match sys with
    | .USB =>
      if !io1Ok then fail 1
      else if !io2Ok then fail 2
      else { ret := some .freshBuf, allocated := some length, freed := [], ioOps := 2 }
    | .HIDAPI =>
      if length > 256 then
        -- early return NULL: the fail label is bypassed, freshBuf stays live
        { ret := none, allocated := some length, freed := [], ioOps := 0 }
      else if hndl_idx ≠ (idx : Int) then
        -- early return NULL: the fail label is bypassed, freshBuf stays live
        { ret := none, allocated := some length, freed := [], ioOps := 0 }
      else if !io1Ok then fail 1
      else if !io2Ok then fail 2
      else { ret := some .freshBuf, allocated := some length, freed := [], ioOps := 2 }
    | .OTHER => fail 0
  else
    { ret := none, allocated := none, freed := [], ioOps := 0 }

/-! ## Interrupt scheduler: InputInterruptData, completion callback, drain -/

/-- Embedding of struct InputInterruptData.  hndl is the identity of the
owning device handle, userdata the opaque pointer; the cb function pointer
is modelled by routing on hndl.  buffer is the current contents of the
record's byte buffer (none models a NULL pointer).  The endpoint and length
fields are uninitialized after malloc in both read-loop constructors, which
assign only cb, hndl, buffer and userdata: a record fresh from malloc
carries indeterminate values there, supplied to the model as explicit
garbage parameters. -/
structure InputInterruptData where
  hndl : Nat
  endpoint : Nat
  length : Nat
  buffer : Option (List Nat)
  userdata : Nat
deriving DecidableEq, Repr

/-- One invocation of a user callback: the (handle, endpoint, buffer,
userdata) tuple it receives (the Daemon pointer argument is ambient). -/
structure CbCall where
  hndl : Nat
  endpoint : Nat
  buffer : Option (List Nat)
  userdata : Nat
deriving DecidableEq, Repr

/-- The completed libusb transfer as seen by input_interrupt_cb: its raw
endpoint byte and the first actual_length received bytes of its buffer. -/
structure Transfer where
  endpoint : Nat
  buffer : List Nat
deriving DecidableEq, Repr

/-- Outcome of one input_interrupt_cb invocation. -/
structure InterruptCbResult where
  /-- scheduled_interupts after the handler returns -/
  queue : List InputInterruptData
  /-- user callbacks invoked synchronously inside the handler, in order -/
  syncCalls : List CbCall
  /-- true when libusb_submit_transfer was called again and succeeded
  (the read loop stays armed) -/
  resubmitted : Bool
  /-- true when the pending request record idata and its buffer were freed
  (the read loop for this endpoint is dead) -/
  idataFreed : Bool
deriving DecidableEq, Repr

/-- Embedding of input_interrupt_cb.  q is scheduled_interupts on entry,
idata the transfer's user_data record, t the completed transfer.  Oracles:
listAllocOk for list_allocate(scheduled_interupts, 2), m1 and m2 for the
two mallocs of the scheduled record and of buffer_copy, resubmitOk for
libusb_submit_transfer, m3 for the malloc of the null-buffer record in the
resubmission-failure branch.

Modelled from the spec: the list utility (scc/utils/list.h, not among the
given sources) is a growable FIFO queue — list_add appends at the tail,
list_filter keeps exactly the elements on which the predicate returns true
(remove_si_by_device returns false, freeing the element, exactly when the
element's hndl equals the given handle), list_allocate reserves capacity. -/
def input_interrupt_cb (q : List InputInterruptData) (idata : InputInterruptData)
    (t : Transfer) (listAllocOk m1 m2 resubmitOk m3 : Bool) : InterruptCbResult :=
  -- input_interrupt_cb_oom: discard every scheduled record of the same
  -- device, then invoke the user callback synchronously with a NULL buffer
  -- and raw t->endpoint, then fall through to input_interrupt_cb_error.
  let oom : List InputInterruptData → InterruptCbResult := fun q0 =>
    { queue := q0.filter (fun r => r.hndl != idata.hndl)
      syncCalls := [{ hndl := idata.hndl, endpoint := t.endpoint,
                      buffer := none, userdata := idata.userdata }]
      resubmitted := false
      idataFreed := true }
  if !listAllocOk then oom q
  else if !m1 || !m2 then oom q
  else
    -- memcpy(scheduled, idata, ...); scheduled->buffer = copy of received
    -- bytes; scheduled->endpoint = t->endpoint & ~LIBUSB_ENDPOINT_DIR_MASK
    let scheduled : InputInterruptData :=
      { idata with buffer := some t.buffer, endpoint := t.endpoint &&& 0x7f }
    let q1 := q ++ [scheduled]
    if resubmitOk then
      { queue := q1, syncCalls := [], resubmitted := true, idataFreed := false }
    else if !m3 then oom q1
    else
      -- memcpy(scheduled, idata, ...); scheduled->buffer = NULL; the
      -- endpoint field keeps idata's (uninitialized) value
      { queue := q1 ++ [{ idata with buffer := none }]
        syncCalls := []
        resubmitted := false
        idataFreed := true }

/-- The FOREACH_IN body of the drain in sccd_usb_helper_mainloop: invoke
each record's callback in list order, freeing the record and its buffer. -/
def drainCalls : List InputInterruptData → List CbCall
  | [] => []
  | r :: rest =>
      { hndl := r.hndl, endpoint := r.endpoint,
        buffer := r.buffer, userdata := r.userdata } :: drainCalls rest

/-- Embedding of the drain step of sccd_usb_helper_mainloop (the part after
libusb_handle_events_timeout_completed): when the queue is non-empty, every
record's callback is invoked in order and each record and its buffer are
freed, then list_clear empties the queue.  Returns the callback invocations,
the records released, and the queue left behind.

Modelled from the spec: FOREACH_IN of the list utility iterates in
insertion order and list_clear empties the list. -/
def sccd_usb_helper_mainloop (q : List InputInterruptData) :
    List CbCall × List InputInterruptData × List InputInterruptData :=
  if q.length > 0 then (drainCalls q, q, [])
  else ([], [], q)

/-! ## open_by_syspath -/

/-- What sccd_usb_dev_open_by_syspath returns, as the caller sees it.
danglingFreed is a non-NULL pointer whose memory was already freed: it
arises when the function frees hndl without resetting the local to NULL
before falling to the common return. -/
inductive OpenResult where
  | null
  | okHid (idx : Int)
  | okUsb
  | danglingFreed
deriving DecidableEq, Repr

/-- Embedding of sccd_usb_dev_open_by_syspath (USE_HIDAPI builds, where the
hidapi branch handles paths with the /hidapi/ prefix).  isHidapiPath tells
whether strstr(syspath, hidapi marker) == syspath; hidMallocOk and
hidOpenOk are the oracles for malloc and hid_open_path on that branch;
miMarker describes the sub-interface marker of the device path: none when
absent, some none when present but unparsable (strtol consumes nothing and
idx is reset to -1), some (some n) when it parses to n.  addr is the result
of get_usb_address (none on failure); deviceList the (bus, address) pairs
libusb currently enumerates; usbMallocOk and usbOpenOk the oracles for
malloc and libusb_open on the libusb branch. -/
def sccd_usb_dev_open_by_syspath (isHidapiPath : Bool)
    (hidMallocOk hidOpenOk : Bool) (miMarker : Option (Option Nat))
    (addr : Option (Nat × Nat)) (deviceList : List (Nat × Nat))
    (usbMallocOk usbOpenOk : Bool) : OpenResult :=
  if isHidapiPath then
    if !hidMallocOk then .null
    else if !hidOpenOk then .null
    else
      match miMarker with
      | none => .okHid (-1)
      | some none => .okHid (-1)
      | some (some n) => .okHid n
  else
    match addr with
    | none => .null
    | some bd =>
      if deviceList.contains bd then
        if !usbMallocOk then .null
        else if !usbOpenOk then
          -- free(hndl); goto ..._end; return hndl — hndl is not reset to
          -- NULL, so the freed non-NULL pointer is returned
          .danglingFreed
        else .okUsb
      else .null

/-! ## Interrupt read loops -/

/-- Allocations made by an interrupt-read-loop start call. -/
inductive RLAlloc where
  | buffer
  | idata
  | transfer
deriving DecidableEq, Repr

/-- Outcome of one start-read-loop call. -/
structure ReadLoopResult where
  /-- the boolean returned to the caller -/
  ret : Bool
  /-- endpoint written into the transfer by libusb_fill_interrupt_transfer,
  when the call got that far -/
  filledEndpoint : Option Nat
  /-- allocations this call made successfully -/
  allocated : List RLAlloc
  /-- allocations this call released before returning -/
  released : List RLAlloc
  /-- the request record handed to d->schedule for the hidapi polling
  simulation, when the call scheduled one -/
  scheduledTick : Option InputInterruptData
  /-- the request record attached as user_data to a successfully submitted
  libusb transfer, when the call submitted one -/
  submittedIdata : Option InputInterruptData
  /-- user callbacks invoked by this call itself (always zero) -/
  syncCallbacks : Nat
deriving DecidableEq, Repr

/-- Embedding of sccd_hidapi_dev_interupt_read_loop.  garbageE and garbageL
are the indeterminate contents of the endpoint and length fields of the
freshly malloc-ed record: the function assigns only cb, hndl, buffer and
userdata and never stores its endpoint and length arguments.  idataOk and
bufOk are the two malloc oracles.

Modelled from the spec: d->schedule (daemon.h, not among the given
sources) registers a one-shot delayed callback carrying an opaque payload,
invoked no sooner than the requested number of ticks later. -/
def sccd_hidapi_dev_interupt_read_loop (hndl : Nat) (endpoint : Nat)
    (length : Nat) (userdata : Nat) (garbageE garbageL : Nat)
    (idataOk bufOk : Bool) : ReadLoopResult :=
  let allocated := (if idataOk then [RLAlloc.idata] else []) ++
                   (if bufOk then [RLAlloc.buffer] else [])
  if !idataOk || !bufOk then
    { ret := false, filledEndpoint := none, allocated := allocated,
      released := allocated, scheduledTick := none, submittedIdata := none,
      syncCallbacks := 0 }
  else
    { ret := true, filledEndpoint := none, allocated := allocated,
      released := [],
      scheduledTick := some { hndl := hndl, endpoint := garbageE,
                              length := garbageL, buffer := some [],
                              userdata := userdata },
      submittedIdata := none,
      syncCallbacks := 0 }

/-- Outcome of one tick of the hidapi polling simulation. -/
structure HidapiTickResult where
  /-- length argument passed to every hid_read_timeout call of this tick -/
  readLen : Nat
  /-- timeout argument of those calls (the code passes 0) -/
  readTimeout : Nat
  /-- user callbacks invoked directly and synchronously, in order -/
  calls : List CbCall
  /-- delay in ticks of the re-scheduling of this callback, if any -/
  rescheduleDelay : Option Nat
deriving DecidableEq, Repr

/-- Embedding of sccd_hidapi_dev_interupt_cb.  reads lists the byte chunks
hid_read_timeout returns with a positive result on this tick, in order;
the loop ends when a read reports no data.  Each chunk is delivered to the
user callback immediately, with idata's endpoint field; every read is
issued with idata's length field and timeout 0; afterwards the callback
re-schedules itself one tick later via d->schedule.

Modelled from the spec: d->schedule as above. -/
def sccd_hidapi_dev_interupt_cb (idata : InputInterruptData)
    (reads : List (List Nat)) : HidapiTickResult :=
  { readLen := idata.length
    readTimeout := 0
    calls := reads.map (fun chunk =>
      { hndl := idata.hndl, endpoint := idata.endpoint,
        buffer := some chunk, userdata := idata.userdata })
    rescheduleDelay := some 1 }

/-- Embedding of sccd_usb_dev_interupt_read_loop.  Dispatches on the
subsystem tag: HIDAPI handles are delegated to the hidapi variant; non-USB,
non-HIDAPI tags fail with no effect.  For USB handles: bufOk, idataOk and
tOk are the oracles for malloc(length), malloc(sizeof(InputInterruptData))
and libusb_alloc_transfer; the transfer is filled with endpoint
(endpoint & ~LIBUSB_ENDPOINT_DIR_MASK) | LIBUSB_ENDPOINT_IN; submitOk is
the oracle for libusb_submit_transfer; garbageE and garbageL are the
indeterminate endpoint and length fields of the freshly malloc-ed record
(never assigned by this function either). -/
def sccd_usb_dev_interupt_read_loop (sys : Subsystem) (hndl : Nat)
    (endpoint : Nat) (length : Nat) (userdata : Nat) (garbageE garbageL : Nat)
    (bufOk idataOk tOk submitOk : Bool) : ReadLoopResult :=
  if sys = .HIDAPI then
    sccd_hidapi_dev_interupt_read_loop hndl endpoint length userdata
      garbageE garbageL idataOk bufOk
  else if sys ≠ .USB then
    { ret := false, filledEndpoint := none, allocated := [], released := [],
      scheduledTick := none, submittedIdata := none, syncCallbacks := 0 }
  else
    let allocated := (if bufOk then [RLAlloc.buffer] else []) ++
                     (if idataOk then [RLAlloc.idata] else []) ++
                     (if tOk then [RLAlloc.transfer] else [])
    if !bufOk || !tOk || !idataOk then
      -- goto ..._fail: free(idata); free(buffer); free transfer when non-NULL
      { ret := false, filledEndpoint := none, allocated := allocated,
        released := allocated, scheduledTick := none, submittedIdata := none,
        syncCallbacks := 0 }
    else
      let ep := (endpoint &&& 0x7f) ||| 0x80
      if submitOk then
        { ret := true, filledEndpoint := some ep, allocated := allocated,
          released := [],
          scheduledTick := none,
          submittedIdata := some { hndl := hndl, endpoint := garbageE,
                                   length := garbageL, buffer := some [],
                                   userdata := userdata },
          syncCallbacks := 0 }
      else
        { ret := false, filledEndpoint := some ep, allocated := allocated,
          released := allocated, scheduledTick := none, submittedIdata := none,
          syncCallbacks := 0 }

/-! ## Theorems -/

/-- C5: for every handle and every negative length argument, hid_request
reuses the caller-supplied buffer for both write and read (any returned
buffer is the caller's), never allocates a new output buffer, and never
frees any buffer — in particular never the caller's — on any path,
including every failure path. -/
theorem hid_request_neg_length_frame (sys : Subsystem) (hndl_idx : Int)
    (idx : Nat) (len : Int) (mallocOk io1Ok io2Ok : Bool) (hlen : len < 0) :
    (sccd_usb_dev_hid_request sys hndl_idx idx len mallocOk io1Ok io2Ok).allocated
      = none ∧
    (sccd_usb_dev_hid_request sys hndl_idx idx len mallocOk io1Ok io2Ok).freed
      = [] ∧
    ((sccd_usb_dev_hid_request sys hndl_idx idx len mallocOk io1Ok io2Ok).ret
        = none ∨
     (sccd_usb_dev_hid_request sys hndl_idx idx len mallocOk io1Ok io2Ok).ret
        = some Buf.callerBuf) := by
  cases sys <;>
    simp only [sccd_usb_dev_hid_request, if_pos hlen] <;>
    (repeat' split) <;> simp

theorem hid_request_neg_length_frame_witness :
    (-8 : Int) < 0 ∧
    ((sccd_usb_dev_hid_request .USB 0 0 (-8) true true true).allocated = none ∧
     (sccd_usb_dev_hid_request .USB 0 0 (-8) true true true).freed = [] ∧
     ((sccd_usb_dev_hid_request .USB 0 0 (-8) true true true).ret = none ∨
      (sccd_usb_dev_hid_request .USB 0 0 (-8) true true true).ret
        = some Buf.callerBuf)) :=
  ⟨by decide, hid_request_neg_length_frame .USB 0 0 (-8) true true true (by decide)⟩

/-- C6: evaluation at the failing input.  On a HIDAPI handle with
non-negative length 300, the length guard takes the early return: the call
returns NULL while the freshly malloc-ed 300-byte output buffer has not
been freed (the early return bypasses the fail label that would free it). -/
theorem hid_request_nonneg_leak_on_early_return :
    (sccd_usb_dev_hid_request .HIDAPI 0 0 300 true true true).ret = none ∧
    (sccd_usb_dev_hid_request .HIDAPI 0 0 300 true true true).allocated
      = some 300 ∧
    (sccd_usb_dev_hid_request .HIDAPI 0 0 300 true true true).freed = [] := by
  decide

/-- C7: on the blocking-read backend, hid_request returns null with no I/O
performed whenever the requested index differs from the sub-interface index
recorded at open time, or the computed request length exceeds the hard
ceiling 256 (BUFFER_MAX). -/
theorem hid_request_hidapi_guards (hndl_idx : Int) (idx : Nat) (len : Int)
    (mallocOk io1Ok io2Ok : Bool)
    (h : hndl_idx ≠ (idx : Int) ∨ hidReqLen len > 256) :
    (sccd_usb_dev_hid_request .HIDAPI hndl_idx idx len mallocOk io1Ok io2Ok).ret
      = none ∧
    (sccd_usb_dev_hid_request .HIDAPI hndl_idx idx len mallocOk io1Ok io2Ok).ioOps
      = 0 := by
  rcases h with h | h <;>
    simp only [sccd_usb_dev_hid_request] <;>
    (repeat' split) <;> simp_all

theorem hid_request_hidapi_guards_witness :
    ((5 : Int) ≠ ((3 : Nat) : Int) ∨ hidReqLen (-8) > 256) ∧
    ((sccd_usb_dev_hid_request .HIDAPI 5 3 (-8) true true true).ret = none ∧
     (sccd_usb_dev_hid_request .HIDAPI 5 3 (-8) true true true).ioOps = 0) :=
  ⟨Or.inl (by decide),
   hid_request_hidapi_guards 5 3 (-8) true true true (Or.inl (by decide))⟩

/-- C4: evaluation at the failing input.  When the syspath resolves to
bus 1 / device 2, that device is enumerated, the handle allocation succeeds
and libusb_open fails, open_by_syspath returns the freed non-NULL handle
pointer instead of NULL: after free(hndl) the local is never reset before
the common return.  Every other failure path of the function does return
NULL. -/
theorem open_by_syspath_dangling_on_open_failure :
    sccd_usb_dev_open_by_syspath false true true none (some (1, 2)) [(1, 2)]
        true false = OpenResult.danglingFreed ∧
    sccd_usb_dev_open_by_syspath false true true none none [(1, 2)]
        true false = OpenResult.null ∧
    sccd_usb_dev_open_by_syspath false true true none (some (1, 2)) [(1, 3)]
        true false = OpenResult.null ∧
    sccd_usb_dev_open_by_syspath false true true none (some (1, 2)) [(1, 2)]
        false false = OpenResult.null ∧
    sccd_usb_dev_open_by_syspath true false true none none [] true true
        = OpenResult.null ∧
    sccd_usb_dev_open_by_syspath true true false none none [] true true
        = OpenResult.null := by
  decide

/-- C8: on an event-driven-backend (USB) handle, start_read_loop fills its
transfer with the endpoint's input direction forced — the endpoint written
is (endpoint & ~LIBUSB_ENDPOINT_DIR_MASK) | LIBUSB_ENDPOINT_IN whatever
direction bits the caller supplied, and ret = true implies that transfer
was submitted; whenever it returns false it has released every allocation
it made, scheduled nothing, submitted nothing and produced no callbacks. -/
theorem usb_read_loop_contract (hndl endpoint length userdata garbageE
    garbageL : Nat) (bufOk idataOk tOk submitOk : Bool) :
    (∀ ep, (sccd_usb_dev_interupt_read_loop .USB hndl endpoint length userdata
              garbageE garbageL bufOk idataOk tOk submitOk).filledEndpoint
            = some ep →
      ep = (endpoint &&& 0x7f) ||| 0x80) ∧
    ((sccd_usb_dev_interupt_read_loop .USB hndl endpoint length userdata
        garbageE garbageL bufOk idataOk tOk submitOk).ret = true →
      (sccd_usb_dev_interupt_read_loop .USB hndl endpoint length userdata
        garbageE garbageL bufOk idataOk tOk submitOk).filledEndpoint
          = some ((endpoint &&& 0x7f) ||| 0x80)) ∧
    ((sccd_usb_dev_interupt_read_loop .USB hndl endpoint length userdata
        garbageE garbageL bufOk idataOk tOk submitOk).ret = false →
      (sccd_usb_dev_interupt_read_loop .USB hndl endpoint length userdata
          garbageE garbageL bufOk idataOk tOk submitOk).released
        = (sccd_usb_dev_interupt_read_loop .USB hndl endpoint length userdata
            garbageE garbageL bufOk idataOk tOk submitOk).allocated ∧
      (sccd_usb_dev_interupt_read_loop .USB hndl endpoint length userdata
          garbageE garbageL bufOk idataOk tOk submitOk).submittedIdata = none ∧
      (sccd_usb_dev_interupt_read_loop .USB hndl endpoint length userdata
          garbageE garbageL bufOk idataOk tOk submitOk).scheduledTick = none ∧
      (sccd_usb_dev_interupt_read_loop .USB hndl endpoint length userdata
          garbageE garbageL bufOk idataOk tOk submitOk).syncCallbacks = 0) := by
  simp only [sccd_usb_dev_interupt_read_loop]
  (repeat' split) <;> simp_all

theorem usb_read_loop_contract_witness :
    (sccd_usb_dev_interupt_read_loop .USB 1 2 64 3 0 0 true true true
        false).ret = false ∧
    (sccd_usb_dev_interupt_read_loop .USB 1 2 64 3 0 0 true true true
        false).released
      = (sccd_usb_dev_interupt_read_loop .USB 1 2 64 3 0 0 true true true
          false).allocated ∧
    (sccd_usb_dev_interupt_read_loop .USB 1 2 64 3 0 0 true true true
        true).filledEndpoint = some (((2 : Nat) &&& 0x7f) ||| 0x80) := by
  refine ⟨by decide, ?_, ?_⟩
  · exact ((usb_read_loop_contract 1 2 64 3 0 0 true true true false).2.2
      (by decide)).1
  · exact (usb_read_loop_contract 1 2 64 3 0 0 true true true true).2.1
      (by decide)

/-- C9: evaluation at the failing input.  A hidapi read loop registered
with endpoint 130 and length 64 (with the freshly malloc-ed record's
indeterminate endpoint and length bytes both happening to be 0) schedules a
request record whose endpoint and length fields are the indeterminate
values, not the registered ones; the next tick then issues its zero-timeout
reads with length 0 instead of 64 and invokes the user callback with
endpoint 0 instead of 130 for the chunk it reads, before re-scheduling
itself one tick later. -/
theorem hidapi_read_loop_uninitialized_routing :
    (sccd_hidapi_dev_interupt_read_loop 7 130 64 9 0 0 true true).ret
      = true ∧
    (sccd_hidapi_dev_interupt_read_loop 7 130 64 9 0 0 true true).scheduledTick
      = some { hndl := 7, endpoint := 0, length := 0, buffer := some [],
               userdata := 9 } ∧
    sccd_hidapi_dev_interupt_cb
        { hndl := 7, endpoint := 0, length := 0, buffer := some [],
          userdata := 9 } [[1, 2, 3]]
      = { readLen := 0, readTimeout := 0,
          calls := [{ hndl := 7, endpoint := 0, buffer := some [1, 2, 3],
                      userdata := 9 }],
          rescheduleDelay := some 1 } ∧
    (0 : Nat) ≠ 130 ∧ (0 : Nat) ≠ 64 := by
  decide

/-- Example pending request record used by concrete witnesses. -/
def exIdata : InputInterruptData :=
  { hndl := 1, endpoint := 0, length := 64, buffer := some [0, 0],
    userdata := 5 }

/-- Example completed transfer used by concrete witnesses. -/
def exTransfer : Transfer := { endpoint := 0x82, buffer := [10, 20] }

/-- Example queue holding two records of handle 1 and one of handle 2,
used by concrete witnesses. -/
def exQueue : List InputInterruptData :=
  [{ hndl := 1, endpoint := 2, length := 64, buffer := some [1], userdata := 5 },
   { hndl := 2, endpoint := 3, length := 32, buffer := some [2], userdata := 6 },
   { hndl := 1, endpoint := 2, length := 64, buffer := some [3], userdata := 5 }]

/-- C1: the completion handler never invokes the user callback on its
normal paths: with the copy allocations succeeding it appends one record
holding a copy of the received bytes to the tail of the queue and, only
then, resubmits; when resubmission fails (and the extra record's
allocation succeeds) it instead appends a second, null-buffer record and
the loop is not re-armed; and whenever the copy does not succeed the
transfer is never resubmitted. -/
theorem interrupt_cb_defers_delivery (q : List InputInterruptData)
    (idata : InputInterruptData) (t : Transfer) (la m1 m2 rs m3 : Bool) :
    ((la && m1 && m2) = false →
      (input_interrupt_cb q idata t la m1 m2 rs m3).resubmitted = false) ∧
    ((la && m1 && m2) = true →
      (rs = true →
        (input_interrupt_cb q idata t la m1 m2 rs m3).syncCalls = [] ∧
        (input_interrupt_cb q idata t la m1 m2 rs m3).queue
          = q ++ [{ idata with
                    buffer := some t.buffer
                    endpoint := t.endpoint &&& 0x7f }] ∧
        (input_interrupt_cb q idata t la m1 m2 rs m3).resubmitted = true ∧
        (input_interrupt_cb q idata t la m1 m2 rs m3).idataFreed = false) ∧
      (rs = false → m3 = true →
        (input_interrupt_cb q idata t la m1 m2 rs m3).syncCalls = [] ∧
        (input_interrupt_cb q idata t la m1 m2 rs m3).queue
          = q ++ [{ idata with
                    buffer := some t.buffer
                    endpoint := t.endpoint &&& 0x7f },
                  { idata with buffer := none }] ∧
        (input_interrupt_cb q idata t la m1 m2 rs m3).resubmitted = false ∧
        (input_interrupt_cb q idata t la m1 m2 rs m3).idataFreed = true)) := by
  cases la <;> cases m1 <;> cases m2 <;> cases rs <;> cases m3 <;>
    simp [input_interrupt_cb, List.append_assoc]

theorem interrupt_cb_defers_delivery_witness :
    (true && true && true) = true ∧
    ((input_interrupt_cb [] exIdata exTransfer true true true true
        true).syncCalls = [] ∧
     (input_interrupt_cb [] exIdata exTransfer true true true true true).queue
       = [] ++ [{ exIdata with
                  buffer := some exTransfer.buffer
                  endpoint := exTransfer.endpoint &&& 0x7f }] ∧
     (input_interrupt_cb [] exIdata exTransfer true true true true
        true).resubmitted = true ∧
     (input_interrupt_cb [] exIdata exTransfer true true true true
        true).idataFreed = false) :=
  ⟨rfl, ((interrupt_cb_defers_delivery [] exIdata exTransfer true true true
            true true).2 rfl).1 rfl⟩

/-- C2: whenever an allocation fails inside the completion handler while
queuing a delivery for the handle of idata, the resulting queue is exactly
the entry queue with every record of that handle removed (records of other
handles are kept, in order), and that handle's user callback is invoked
exactly once, synchronously, with a null buffer. -/
theorem interrupt_cb_oom_teardown (q : List InputInterruptData)
    (idata : InputInterruptData) (t : Transfer) (la m1 m2 rs m3 : Bool)
    (hoom : la = false ∨ m1 = false ∨ m2 = false ∨ (rs = false ∧ m3 = false)) :
    (input_interrupt_cb q idata t la m1 m2 rs m3).queue
      = q.filter (fun x => x.hndl != idata.hndl) ∧
    (input_interrupt_cb q idata t la m1 m2 rs m3).syncCalls
      = [{ hndl := idata.hndl, endpoint := t.endpoint, buffer := none,
           userdata := idata.userdata }] ∧
    (input_interrupt_cb q idata t la m1 m2 rs m3).resubmitted = false ∧
    (input_interrupt_cb q idata t la m1 m2 rs m3).idataFreed = true := by
  cases la <;> cases m1 <;> cases m2 <;> cases rs <;> cases m3 <;>
    simp_all [input_interrupt_cb, List.filter_append]

theorem interrupt_cb_oom_teardown_witness :
    (false = false ∨ true = false ∨ true = false ∨
      (true = false ∧ true = false)) ∧
    ((input_interrupt_cb exQueue exIdata exTransfer false true true true
        true).queue
       = exQueue.filter (fun x => x.hndl != exIdata.hndl) ∧
     (input_interrupt_cb exQueue exIdata exTransfer false true true true
        true).syncCalls
       = [{ hndl := exIdata.hndl, endpoint := exTransfer.endpoint,
            buffer := none, userdata := exIdata.userdata }] ∧
     (input_interrupt_cb exQueue exIdata exTransfer false true true true
        true).resubmitted = false ∧
     (input_interrupt_cb exQueue exIdata exTransfer false true true true
        true).idataFreed = true) :=
  ⟨Or.inl rfl,
   interrupt_cb_oom_teardown exQueue exIdata exTransfer false true true true
     true (Or.inl rfl)⟩

/-- The delivered callbacks of a drain are the queue's records viewed as
callback invocations, in list order. -/
theorem drainCalls_eq_map (q : List InputInterruptData) :
    drainCalls q = q.map (fun r =>
      { hndl := r.hndl, endpoint := r.endpoint, buffer := r.buffer,
        userdata := r.userdata }) := by
  induction q with
  | nil => rfl
  | cons r rest ih => simp [drainCalls, ih]

/-- C3: a drain of the per-tick mainloop invokes the user callback once per
queued record, in FIFO arrival order, releases every record (and with it
its buffer), and leaves the queue empty. -/
theorem mainloop_drain_fifo (q : List InputInterruptData) :
    sccd_usb_helper_mainloop q
      = (q.map (fun r =>
            { hndl := r.hndl, endpoint := r.endpoint, buffer := r.buffer,
              userdata := r.userdata }),
         q, []) := by
  unfold sccd_usb_helper_mainloop
  split
  · rw [drainCalls_eq_map]
  · next h =>
      have hq : q = [] := List.length_eq_zero.mp (by omega)
      subst hq
      rfl

set_option maxRecDepth 4000 in
/-- Auxiliary: masking a byte with 0x7f clears its direction bit. -/
theorem land_mask_clears_bit : ∀ e < 256, (e &&& 0x7f) &&& 0x80 = 0 := by
  decide

set_option maxRecDepth 4000 in
/-- Auxiliary: on a byte with the direction bit set, masking with 0x7f
changes the value. -/
theorem land_mask_ne_of_bit : ∀ e < 256, e &&& 0x80 ≠ 0 → e &&& 0x7f ≠ e := by
  decide

/-- C10 counterexample: a record queued on the resubmission-failure path
carries the pending request record's endpoint field — which
sccd_usb_dev_interupt_read_loop never initializes — so a callback delivered
through the drain queue can see an endpoint with the direction bit still
set.  Concretely: a loop registered for endpoint 2 submits a transfer whose
user_data record has indeterminate endpoint byte 0xAA; when that transfer
completes (raw endpoint 0x82) and resubmission fails, the drain delivers a
callback whose endpoint is 0xAA, with the direction bit set — refuting the
claim that every callback delivered through the drain queue receives the
endpoint with the direction bit cleared. -/
theorem drain_endpoint_dir_bit_counterexample :
    (sccd_usb_dev_interupt_read_loop .USB 1 2 64 5 0xAA 0 true true true
        true).submittedIdata
      = some { hndl := 1, endpoint := 0xAA, length := 0, buffer := some [],
               userdata := 5 } ∧
    ((sccd_usb_helper_mainloop
        (input_interrupt_cb []
          { hndl := 1, endpoint := 0xAA, length := 0, buffer := some [],
            userdata := 5 }
          { endpoint := 0x82, buffer := [9] } true true true false
          true).queue).1.all
      (fun c => c.endpoint &&& 0x80 == 0)) = false := by
  decide

/-- C10 as amended: a record queued by a successful copy carries
t->endpoint with the direction bit cleared; the null-buffer record queued
on resubmission failure instead carries the request record's own
(uninitialized) endpoint field; the synchronous allocation-failure callback
passes the raw t->endpoint; and for every endpoint byte with the input bit
set the masked value differs from the raw one, so the endpoint seen by the
caller differs between the successful-copy drain path and the synchronous
failure path. -/
theorem interrupt_delivery_endpoint_paths (q : List InputInterruptData)
    (idata : InputInterruptData) (t : Transfer) (m1 m2 rs m3 : Bool)
    (he : t.endpoint < 256) :
    (input_interrupt_cb q idata t true true true true m3).queue
      = q ++ [{ idata with
                buffer := some t.buffer
                endpoint := t.endpoint &&& 0x7f }] ∧
    (t.endpoint &&& 0x7f) &&& 0x80 = 0 ∧
    (input_interrupt_cb q idata t true true true false true).queue
      = q ++ [{ idata with
                buffer := some t.buffer
                endpoint := t.endpoint &&& 0x7f },
              { idata with buffer := none }] ∧
    (input_interrupt_cb q idata t false m1 m2 rs m3).syncCalls
      = [{ hndl := idata.hndl, endpoint := t.endpoint, buffer := none,
           userdata := idata.userdata }] ∧
    (t.endpoint &&& 0x80 ≠ 0 → t.endpoint &&& 0x7f ≠ t.endpoint) := by
  refine ⟨?_, land_mask_clears_bit t.endpoint he, ?_, ?_,
    land_mask_ne_of_bit t.endpoint he⟩
  · simp [input_interrupt_cb]
  · simp [input_interrupt_cb, List.append_assoc]
  · simp [input_interrupt_cb]

theorem interrupt_delivery_endpoint_paths_witness :
    exTransfer.endpoint < 256 ∧
    ((input_interrupt_cb [] exIdata exTransfer true true true true true).queue
       = [] ++ [{ exIdata with
                  buffer := some exTransfer.buffer
                  endpoint := exTransfer.endpoint &&& 0x7f }] ∧
     (exTransfer.endpoint &&& 0x7f) &&& 0x80 = 0 ∧
     (input_interrupt_cb [] exIdata exTransfer true true true false
        true).queue
       = [] ++ [{ exIdata with
                  buffer := some exTransfer.buffer
                  endpoint := exTransfer.endpoint &&& 0x7f },
                { exIdata with buffer := none }] ∧
     (input_interrupt_cb [] exIdata exTransfer false true true true
        true).syncCalls
       = [{ hndl := exIdata.hndl, endpoint := exTransfer.endpoint,
            buffer := none, userdata := exIdata.userdata }] ∧
     (exTransfer.endpoint &&& 0x80 ≠ 0 →
       exTransfer.endpoint &&& 0x7f ≠ exTransfer.endpoint)) :=
  ⟨by decide,
   interrupt_delivery_endpoint_paths [] exIdata exTransfer true true true
     true (by decide)⟩

end UsbHelper
